import Mathlib

/-!
Shallow embedding of the QDax example notebook `examples/dcrlme.ipynb`.

Scalar values produced by the numeric framework are modelled by `Fl`,
`Option ℚ`: `some q` is a finite float and `none` is IEEE NaN.  The
arithmetic used by the notebook (multiplication by NaN, addition of an
offset, clipping via maximum) is embedded with IEEE NaN propagation.

External collaborators that the notebook only calls (the brax
environment, the policy network's apply function, the MAP-Elites update)
are abstracted as parameters; glue code defined in the notebook itself
(`play_step_fn`, the wrapper chain, the training loop, the bootstrap, the
configuration cell) is translated definition by definition.
-/

namespace DCRLME

/-- Float model: `some q` is a finite value, `none` is NaN. -/
abbrev Fl := Option ℚ

/-- IEEE NaN. -/
def Fl.nan : Fl := none

/-- A finite float. -/
def Fl.ofQ (q : ℚ) : Fl := some q

/-- Float multiplication with NaN propagation (`x * NaN = NaN`). -/
def Fl.mul : Fl → Fl → Fl
  | some a, some b => some (a * b)
  | _, _ => none

/-- Float addition with NaN propagation. -/
def Fl.add : Fl → Fl → Fl
  | some a, some b => some (a + b)
  | _, _ => none

/-- Float maximum, propagating NaN (as `jnp.maximum` does). -/
def Fl.fmax : Fl → Fl → Fl
  | some a, some b => some (max a b)
  | _, _ => none

/-- `x` is a finite, non-negative value. -/
def Fl.isNonneg : Fl → Bool
  | some a => decide (0 ≤ a)
  | none => false

/-- `jnp.zeros(n)`: a vector of `n` zeros. -/
def jnpZeros (n : ℕ) : List Fl := List.replicate n (Fl.ofQ 0)

/-- Broadcast multiplication of a vector by a scalar, as in
`jnp.zeros(n) * jnp.nan`. -/
def jnpMulScalar (v : List Fl) (s : Fl) : List Fl :=
  v.map (fun x => Fl.mul x s)

/-- Policy parameters: opaque token, never inspected by the notebook's glue
code. -/
abbrev Params := ℕ

/-- JAX PRNG key: opaque token for the notebook's glue code. -/
abbrev RNGKey := ℕ

/-- A brax environment state as used by the notebook: observation, reward,
done flag, and the `info` dict's `truncation` and `state_descriptor`
entries, flattened into fields. -/
structure EnvState where
  obs : List Fl
  reward : Fl
  done : Fl
  info_truncation : Fl
  info_state_descriptor : List Fl

/-- The slice of the brax/QDax environment interface the notebook uses:
declared dimensions and the step function. -/
structure Env where
  observation_size : ℕ
  action_size : ℕ
  behavior_descriptor_length : ℕ
  step : EnvState → List Fl → EnvState

/-- Modelled from the spec: `OffsetRewardWrapper` (QDax
`qdax.environments.wrappers`, not under `src/`) — a reward-shaping wrapper
that adds the environment-specific reward offset to each step's reward
("apply reward offset as DCRL needs positive rewards"). -/
def OffsetRewardWrapper (e : Env) (offset : ℚ) : Env :=
  { e with
    step := fun s a =>
      let s' := e.step s a
      { s' with reward := Fl.add s'.reward (Fl.ofQ offset) } }

/-- Modelled from the spec: `ClipRewardWrapper` (QDax
`qdax.environments.wrappers`, not under `src/`) — a reward-shaping wrapper
that clips each step's reward from below at `clip_min`
("apply reward clip as DCRL needs positive rewards"). -/
def ClipRewardWrapper (e : Env) (clip_min : ℚ) : Env :=
  { e with
    step := fun s a =>
      let s' := e.step s a
      { s' with reward := Fl.fmax s'.reward (Fl.ofQ clip_min) } }

/-- The environment the notebook steps and scores with: the factory output
wrapped by `OffsetRewardWrapper(env, offset=reward_offset[env_name])` and
then `ClipRewardWrapper(env, clip_min=0.)`. -/
def notebookEnv (base : Env) (reward_offset : ℚ) : Env :=
  ClipRewardWrapper (OffsetRewardWrapper base reward_offset) 0

/-- A reward-shaping wrapper applied by the notebook, named by kind. -/
inductive WrapperTag
  | offsetReward (offset : ℚ)
  | clipReward (clip_min : ℚ)

/-- Apply one wrapper to an environment. -/
def applyWrapper (e : Env) : WrapperTag → Env
  | .offsetReward o => OffsetRewardWrapper e o
  | .clipReward m => ClipRewardWrapper e m

/-- The chain of wrappers the notebook puts between the factory output and
the environment it uses, in application order. -/
def notebookWrappers (reward_offset : ℚ) : List WrapperTag :=
  [.offsetReward reward_offset, .clipReward 0]

/-- The `DCRLTransition` record as instantiated by `play_step_fn`. -/
structure DCRLTransition where
  obs : List Fl
  next_obs : List Fl
  rewards : Fl
  dones : Fl
  truncations : Fl
  actions : List Fl
  state_desc : List Fl
  next_state_desc : List Fl
  desc : List Fl
  desc_prime : List Fl

/-- `play_step_fn` from the notebook: act with the policy, step the
environment, and assemble a `DCRLTransition`.  The policy network's
`apply` is the captured external collaborator `policy_network.apply`. -/
def play_step_fn (env : Env) (policy_network_apply : Params → List Fl → List Fl)
    (env_state : EnvState) (policy_params : Params) (random_key : RNGKey) :
    EnvState × Params × RNGKey × DCRLTransition :=
  let actions := policy_network_apply policy_params env_state.obs
  let state_desc := env_state.info_state_descriptor
  let next_state := env.step env_state actions
  let transition : DCRLTransition :=
    { obs := env_state.obs
      next_obs := next_state.obs
      rewards := next_state.reward
      dones := next_state.done
      truncations := next_state.info_truncation
      actions := actions
      state_desc := state_desc
      next_state_desc := next_state.info_state_descriptor
      desc := jnpMulScalar (jnpZeros env.behavior_descriptor_length) Fl.nan
      desc_prime := jnpMulScalar (jnpZeros env.behavior_descriptor_length) Fl.nan }
  (next_state, policy_params, random_key, transition)

/-! ## Dependency bootstrap (first code cell) -/

/-- An observable action of the bootstrap cell. -/
inductive BootstrapAction
  | importQdax
  | pipInstall
  deriving DecidableEq

/-- The bootstrap cell: `try: import qdax except: !pip install qdax; import
qdax`.  `import_ok` records whether the initial import raises; on failure
the package is installed and the import is retried. -/
def bootstrap (import_ok : Bool) : List BootstrapAction :=
  if import_ok then [.importQdax]
  else [.importQdax, .pipInstall, .importQdax]

/-! ## Configuration cell -/

def seed : ℕ := 42

def env_name : String := "ant_omni"

def episode_length : ℕ := 250

def num_iterations : ℕ := 1000

def batch_size : ℕ := 256

def ga_batch_size : ℕ := 128

def dcrl_batch_size : ℕ := 64

def ai_batch_size : ℕ := 64

def lengthscale : ℚ := 0.1

def iso_sigma : ℚ := 0.005

def line_sigma : ℚ := 0.05

def critic_hidden_layer_size : ℕ × ℕ := (256, 256)

def num_critic_training_steps : ℕ := 3000

def num_pg_training_steps : ℕ := 150

def replay_buffer_size : ℕ := 1000000

def discount : ℚ := 0.99

def reward_scaling : ℚ := 1.0

def critic_learning_rate : ℚ := 3e-4

def actor_learning_rate : ℚ := 3e-4

def policy_learning_rate : ℚ := 5e-3

def noise_clip : ℚ := 0.5

def policy_noise : ℚ := 0.2

def soft_tau_update : ℚ := 0.005

def policy_delay : ℕ := 2

/-- The external `DCRLMEConfig` parameter bag, with exactly the fields the
notebook's constructor call supplies. -/
structure DCRLMEConfig where
  ga_batch_size : ℕ
  dcrl_batch_size : ℕ
  ai_batch_size : ℕ
  lengthscale : ℚ
  critic_hidden_layer_size : ℕ × ℕ
  num_critic_training_steps : ℕ
  num_pg_training_steps : ℕ
  batch_size : ℕ
  replay_buffer_size : ℕ
  discount : ℚ
  reward_scaling : ℚ
  critic_learning_rate : ℚ
  actor_learning_rate : ℚ
  policy_learning_rate : ℚ
  noise_clip : ℚ
  policy_noise : ℚ
  soft_tau_update : ℚ
  policy_delay : ℕ

/-- The `dcrl_emitter_config = DCRLMEConfig(...)` cell, field for field. -/
def dcrl_emitter_config : DCRLMEConfig :=
  { ga_batch_size := ga_batch_size
    dcrl_batch_size := dcrl_batch_size
    ai_batch_size := ai_batch_size
    lengthscale := lengthscale
    critic_hidden_layer_size := critic_hidden_layer_size
    num_critic_training_steps := num_critic_training_steps
    num_pg_training_steps := num_pg_training_steps
    batch_size := batch_size
    replay_buffer_size := replay_buffer_size
    discount := discount
    reward_scaling := reward_scaling
    critic_learning_rate := critic_learning_rate
    actor_learning_rate := actor_learning_rate
    policy_learning_rate := policy_learning_rate
    noise_clip := noise_clip
    policy_noise := policy_noise
    soft_tau_update := soft_tau_update
    policy_delay := policy_delay }

/-! ## Training loop and CSV logging -/

def log_period : ℕ := 10

/-- `num_loops = int(num_iterations / log_period)`. -/
def num_loops : ℕ := num_iterations / log_period

/-- Modelled from the spec: the metrics dict returned by
`default_qd_metrics` (QDax `qdax.utils.metrics`, not under `src/`), whose
keys are the spec's columns `qd_score`, `max_fitness`, `coverage`. -/
structure Metrics where
  qd_score : Fl
  max_fitness : Fl
  coverage : Fl

/-- Default metrics value (never logged: the scan length is positive). -/
def Metrics.dflt : Metrics := ⟨Fl.nan, Fl.nan, Fl.nan⟩

/-- Modelled from the spec: `CSVLogger` (QDax `qdax.utils.metrics`, not
under `src/`) — "a CSV file written incrementally", holding the declared
header and the data rows written so far. -/
structure CSVLogger where
  filename : String
  header : List String
  rows : List (List (String × Fl))

/-- `csv_logger.log(metrics)` appends one data row. -/
def CSVLogger.log (l : CSVLogger) (row : List (String × Fl)) : CSVLogger :=
  { l with rows := l.rows ++ [row] }

/-- The `csv_logger = CSVLogger(...)` construction in the notebook. -/
def csv_logger_init : CSVLogger :=
  { filename := "dcrlme-logs.csv"
    header := ["loop", "iteration", "qd_score", "max_fitness", "coverage", "time"]
    rows := [] }

/-- `update_scan_fn`: one MAP-Elites update on the carry
`(repertoire, emitter_state, random_key)`, abstracted as `update` on an
abstract carry type `C`. -/
def update_scan_fn {C : Type} (update : C → C × Metrics) (carry : C)
    (_ : Unit) : C × Metrics :=
  update carry

/-- `jax.lax.scan f carry () length=n`: run `f` `n` times, threading the
carry and stacking the per-step outputs. -/
def laxScan {C X : Type} (f : C → Unit → C × X) : C → ℕ → C × List X
  | c, 0 => (c, [])
  | c, n + 1 =>
    let r := f c ()
    let rest := laxScan f r.1 n
    (rest.1, r.2 :: rest.2)

/-- The `logged_metrics` dict of loop `i` in Python insertion order:
`time`, `loop = 1+i`, `iteration = 1+i*log_period`, then the last metric
value of each key in the interval. -/
def loggedRow (i : ℕ) (timelapse : Fl) (m : Metrics) : List (String × Fl) :=
  [("time", timelapse),
   ("loop", Fl.ofQ (1 + i)),
   ("iteration", Fl.ofQ (1 + i * log_period)),
   ("qd_score", m.qd_score),
   ("max_fitness", m.max_fitness),
   ("coverage", m.coverage)]

/-- One iteration of the notebook's main `for i in range(num_loops)` loop:
a scan of length `log_period`, then one `csv_logger.log` call with the
last metric values of the interval. -/
def loopIter {C : Type} (update : C → C × Metrics) (timelapse : ℕ → Fl)
    (st : C × CSVLogger) (i : ℕ) : C × CSVLogger :=
  let r := laxScan (update_scan_fn update) st.1 log_period
  let logged := loggedRow i (timelapse i) (r.2.getLastD Metrics.dflt)
  (r.1, st.2.log logged)

/-- The notebook's main loop: `num_loops` logging intervals starting from
the initial carry and the freshly constructed CSV logger.  `timelapse`
abstracts the wall-clock measurement of each interval. -/
def mainLoop {C : Type} (update : C → C × Metrics) (timelapse : ℕ → Fl)
    (c0 : C) : C × CSVLogger :=
  (List.range num_loops).foldl (loopIter update timelapse) (c0, csv_logger_init)

/-! ## Helper lemmas -/

theorem jnp_zeros_mul_nan (n : ℕ) :
    jnpMulScalar (jnpZeros n) Fl.nan = List.replicate n Fl.nan := by
  simp only [jnpMulScalar, jnpZeros, List.map_replicate]
  rfl

/-! ## Claims -/

/-- C2: the transition record built by `play_step_fn` is assembled exactly
from the environment-step outputs: `obs` is the pre-step observation,
`next_obs`/`rewards`/`dones`/`truncations`/`next_state_desc` come from the
post-step state, `actions` is the applied action, `state_desc` the
pre-step state descriptor, and `desc`/`desc_prime` are the NaN descriptor
placeholders. -/
theorem play_step_fn_transition_assembly (env : Env)
    (policy_network_apply : Params → List Fl → List Fl)
    (env_state : EnvState) (policy_params : Params) (random_key : RNGKey) :
    let actions := policy_network_apply policy_params env_state.obs
    let next_state := env.step env_state actions
    let t := (play_step_fn env policy_network_apply env_state policy_params
      random_key).2.2.2
    t.obs = env_state.obs ∧
    t.next_obs = next_state.obs ∧
    t.rewards = next_state.reward ∧
    t.dones = next_state.done ∧
    t.truncations = next_state.info_truncation ∧
    t.actions = actions ∧
    t.state_desc = env_state.info_state_descriptor ∧
    t.next_state_desc = next_state.info_state_descriptor ∧
    t.desc = jnpMulScalar (jnpZeros env.behavior_descriptor_length) Fl.nan ∧
    t.desc_prime = jnpMulScalar (jnpZeros env.behavior_descriptor_length) Fl.nan :=
  ⟨rfl, rfl, rfl, rfl, rfl, rfl, rfl, rfl, rfl, rfl⟩

/-- C9: `play_step_fn` returns its `policy_params` and `random_key`
arguments unchanged; only the environment state advances. -/
theorem play_step_fn_passthrough (env : Env)
    (policy_network_apply : Params → List Fl → List Fl)
    (env_state : EnvState) (policy_params : Params) (random_key : RNGKey) :
    (play_step_fn env policy_network_apply env_state policy_params
      random_key).2.1 = policy_params ∧
    (play_step_fn env policy_network_apply env_state policy_params
      random_key).2.2.1 = random_key :=
  ⟨rfl, rfl⟩

/-- C10: the `desc` and `desc_prime` placeholders of every transition built
by `play_step_fn` are vectors of length `env.behavior_descriptor_length`
whose every entry is NaN (`jnp.zeros(...) * jnp.nan`). -/
theorem play_step_fn_desc_placeholders_nan (env : Env)
    (policy_network_apply : Params → List Fl → List Fl)
    (env_state : EnvState) (policy_params : Params) (random_key : RNGKey) :
    let t := (play_step_fn env policy_network_apply env_state policy_params
      random_key).2.2.2
    t.desc.length = env.behavior_descriptor_length ∧
    t.desc_prime.length = env.behavior_descriptor_length ∧
    (∀ x ∈ t.desc, x = Fl.nan) ∧
    (∀ x ∈ t.desc_prime, x = Fl.nan) := by
  refine ⟨?_, ?_, ?_, ?_⟩ <;>
    simp only [play_step_fn, jnp_zeros_mul_nan, List.length_replicate]
  · intro x hx
    exact List.eq_of_mem_replicate hx
  · intro x hx
    exact List.eq_of_mem_replicate hx

/-- C4: the bootstrap cell installs the package exactly when the initial
`import qdax` raises; on a successful import no installation happens, and
the failure path is install-then-reimport. -/
theorem bootstrap_install_iff_import_fails (import_ok : Bool) :
    (BootstrapAction.pipInstall ∈ bootstrap import_ok ↔ import_ok = false) ∧
    bootstrap true = [.importQdax] ∧
    bootstrap false = [.importQdax, .pipInstall, .importQdax] := by
  refine ⟨?_, rfl, rfl⟩
  cases import_ok <;> simp [bootstrap]

/-- C6 as stated is false: the notebook applies two reward wrappers, not
exactly one, between the factory output and the environment it uses. -/
theorem notebook_wrappers_not_one : ¬ ((notebookWrappers 0).length = 1) := by
  decide

/-- C6 (amended): exactly two reward-shaping wrappers stand between the
environment factory output and the environment used for stepping and
scoring: `OffsetRewardWrapper` then `ClipRewardWrapper`. -/
theorem notebook_wrappers_two (base : Env) (reward_offset : ℚ) :
    notebookEnv base reward_offset =
      (notebookWrappers reward_offset).foldl applyWrapper base ∧
    (notebookWrappers reward_offset).length = 2 :=
  ⟨rfl, rfl⟩

/-- C7: every parameter of the DCRL emitter configuration cell is passed
unchanged, field for field, into the `DCRLMEConfig` object. -/
theorem dcrl_emitter_config_fields :
    dcrl_emitter_config.ga_batch_size = ga_batch_size ∧
    dcrl_emitter_config.dcrl_batch_size = dcrl_batch_size ∧
    dcrl_emitter_config.ai_batch_size = ai_batch_size ∧
    dcrl_emitter_config.lengthscale = lengthscale ∧
    dcrl_emitter_config.critic_hidden_layer_size = critic_hidden_layer_size ∧
    dcrl_emitter_config.num_critic_training_steps = num_critic_training_steps ∧
    dcrl_emitter_config.num_pg_training_steps = num_pg_training_steps ∧
    dcrl_emitter_config.batch_size = batch_size ∧
    dcrl_emitter_config.replay_buffer_size = replay_buffer_size ∧
    dcrl_emitter_config.discount = discount ∧
    dcrl_emitter_config.reward_scaling = reward_scaling ∧
    dcrl_emitter_config.critic_learning_rate = critic_learning_rate ∧
    dcrl_emitter_config.actor_learning_rate = actor_learning_rate ∧
    dcrl_emitter_config.policy_learning_rate = policy_learning_rate ∧
    dcrl_emitter_config.noise_clip = noise_clip ∧
    dcrl_emitter_config.policy_noise = policy_noise ∧
    dcrl_emitter_config.soft_tau_update = soft_tau_update ∧
    dcrl_emitter_config.policy_delay = policy_delay :=
  ⟨rfl, rfl, rfl, rfl, rfl, rfl, rfl, rfl, rfl, rfl, rfl, rfl, rfl, rfl, rfl,
    rfl, rfl, rfl⟩

/-- C3: when the environment and policy respect their declared dimensions,
the transition record returned by `play_step_fn` has field shapes matching
them: observations of length `observation_size`, actions of length
`action_size`, and all four descriptor fields of length
`behavior_descriptor_length`. -/
theorem play_step_fn_transition_shapes (env : Env)
    (policy_network_apply : Params → List Fl → List Fl)
    (env_state : EnvState) (policy_params : Params) (random_key : RNGKey)
    (hobs : env_state.obs.length = env.observation_size)
    (hdesc : env_state.info_state_descriptor.length =
      env.behavior_descriptor_length)
    (hstep_obs : ∀ s a, ((env.step s a).obs).length = env.observation_size)
    (hstep_desc : ∀ s a, ((env.step s a).info_state_descriptor).length =
      env.behavior_descriptor_length)
    (happly : ∀ p o, (policy_network_apply p o).length = env.action_size) :
    let t := (play_step_fn env policy_network_apply env_state policy_params
      random_key).2.2.2
    t.obs.length = env.observation_size ∧
    t.next_obs.length = env.observation_size ∧
    t.actions.length = env.action_size ∧
    t.state_desc.length = env.behavior_descriptor_length ∧
    t.next_state_desc.length = env.behavior_descriptor_length ∧
    t.desc.length = env.behavior_descriptor_length ∧
    t.desc_prime.length = env.behavior_descriptor_length := by
  refine ⟨hobs, hstep_obs _ _, happly _ _, hdesc, hstep_desc _ _, ?_, ?_⟩ <;>
    simp only [play_step_fn, jnp_zeros_mul_nan, List.length_replicate]

/-- A concrete well-formed environment state used to instantiate the
hypotheses of the shape and reward theorems. -/
def wState : EnvState :=
  { obs := [Fl.ofQ 0]
    reward := Fl.ofQ 0
    done := Fl.ofQ 0
    info_truncation := Fl.ofQ 0
    info_state_descriptor := [Fl.ofQ 0] }

/-- A concrete environment whose step function respects its declared
dimensions. -/
def wEnv : Env :=
  { observation_size := 1
    action_size := 1
    behavior_descriptor_length := 1
    step := fun _ _ => wState }

/-- A concrete policy apply function producing one action coordinate. -/
def wApply : Params → List Fl → List Fl := fun _ _ => [Fl.ofQ 0]

/-- Witness for C3 at a concrete environment, policy and state. -/
theorem play_step_fn_transition_shapes_witness :
    let t := (play_step_fn wEnv wApply wState 0 0).2.2.2
    t.obs.length = wEnv.observation_size ∧
    t.next_obs.length = wEnv.observation_size ∧
    t.actions.length = wEnv.action_size ∧
    t.state_desc.length = wEnv.behavior_descriptor_length ∧
    t.next_state_desc.length = wEnv.behavior_descriptor_length ∧
    t.desc.length = wEnv.behavior_descriptor_length ∧
    t.desc_prime.length = wEnv.behavior_descriptor_length :=
  play_step_fn_transition_shapes wEnv wApply wState 0 0 rfl rfl
    (fun _ _ => rfl) (fun _ _ => rfl) (fun _ _ => rfl)

/-- C8: because the stepped environment is wrapped by `OffsetRewardWrapper`
and then `ClipRewardWrapper` with `clip_min = 0`, every (finite-based)
reward recorded in a transition produced by `play_step_fn` is
non-negative. -/
theorem play_step_fn_rewards_nonneg (base : Env) (reward_offset : ℚ)
    (policy_network_apply : Params → List Fl → List Fl)
    (env_state : EnvState) (policy_params : Params) (random_key : RNGKey)
    (h : ∃ r : ℚ,
      (base.step env_state
        (policy_network_apply policy_params env_state.obs)).reward =
        Fl.ofQ r) :
    Fl.isNonneg
      ((play_step_fn (notebookEnv base reward_offset) policy_network_apply
        env_state policy_params random_key).2.2.2).rewards = true := by
  obtain ⟨r, hr⟩ := h
  show Fl.isNonneg
    ((notebookEnv base reward_offset).step env_state
      (policy_network_apply policy_params env_state.obs)).reward = true
  simp only [notebookEnv, ClipRewardWrapper, OffsetRewardWrapper, hr]
  simp only [Fl.ofQ, Fl.add, Fl.fmax, Fl.isNonneg, decide_eq_true_eq]
  exact le_max_right _ _

/-- Witness for C8 at a concrete base environment with finite reward. -/
theorem play_step_fn_rewards_nonneg_witness :
    Fl.isNonneg
      ((play_step_fn (notebookEnv wEnv 1) wApply wState 0 0).2.2.2).rewards =
      true :=
  play_step_fn_rewards_nonneg wEnv 1 wApply wState 0 0 ⟨0, rfl⟩

/-! ## Loop lemmas -/

theorem loopIter_snd {C : Type} (update : C → C × Metrics) (timelapse : ℕ → Fl)
    (st : C × CSVLogger) (i : ℕ) :
    (loopIter update timelapse st i).2 =
      st.2.log (loggedRow i (timelapse i)
        ((laxScan (update_scan_fn update) st.1 log_period).2.getLastD
          Metrics.dflt)) :=
  rfl

theorem foldl_loopIter_header {C : Type} (update : C → C × Metrics)
    (timelapse : ℕ → Fl) (l : List ℕ) (st : C × CSVLogger) :
    (l.foldl (loopIter update timelapse) st).2.header = st.2.header := by
  induction l generalizing st with
  | nil => rfl
  | cons a l ih =>
    rw [List.foldl_cons, ih]
    rfl

theorem foldl_loopIter_rows_length {C : Type} (update : C → C × Metrics)
    (timelapse : ℕ → Fl) (l : List ℕ) (st : C × CSVLogger) :
    ((l.foldl (loopIter update timelapse) st).2.rows).length =
      st.2.rows.length + l.length := by
  induction l generalizing st with
  | nil => rfl
  | cons a l ih =>
    rw [List.foldl_cons, ih, loopIter_snd]
    simp [CSVLogger.log]
    omega

theorem foldl_loopIter_rows_mem {C : Type} (update : C → C × Metrics)
    (timelapse : ℕ → Fl) (l : List ℕ) (st : C × CSVLogger)
    (row : List (String × Fl))
    (h : row ∈ (l.foldl (loopIter update timelapse) st).2.rows) :
    row ∈ st.2.rows ∨ ∃ i t m, row = loggedRow i t m := by
  induction l generalizing st with
  | nil => exact Or.inl h
  | cons a l ih =>
    rw [List.foldl_cons] at h
    rcases ih _ h with h' | h'
    · rw [loopIter_snd] at h'
      simp only [CSVLogger.log, List.mem_append, List.mem_singleton] at h'
      rcases h' with h' | h'
      · exact Or.inl h'
      · exact Or.inr ⟨a, _, _, h'⟩
    · exact Or.inr h'

theorem loggedRow_keys (i : ℕ) (t : Fl) (m : Metrics) :
    (loggedRow i t m).map Prod.fst =
      ["time", "loop", "iteration", "qd_score", "max_fitness", "coverage"] :=
  rfl

theorem laxScan_update_fst {C : Type} (update : C → C × Metrics) :
    ∀ (n : ℕ) (c : C),
      (laxScan (update_scan_fn update) c n).1 =
        (fun c => (update c).1)^[n] c := by
  intro n
  induction n with
  | zero => intro c; rfl
  | succ n ih =>
    intro c
    rw [Function.iterate_succ_apply]
    exact ih _

theorem foldl_loopIter_fst {C : Type} (update : C → C × Metrics)
    (timelapse : ℕ → Fl) (l : List ℕ) (st : C × CSVLogger) :
    (l.foldl (loopIter update timelapse) st).1 =
      (fun c => (update c).1)^[l.length * log_period] st.1 := by
  induction l generalizing st with
  | nil => rfl
  | cons a l ih =>
    rw [List.foldl_cons, ih]
    show _ = (fun c => (update c).1)^[(l.length + 1) * log_period] st.1
    rw [Nat.succ_mul, Function.iterate_add_apply]
    congr 1

/-- C1: the CSV logger is constructed with exactly the header
`[loop, iteration, qd_score, max_fitness, coverage, time]`, keeps it
through the loop, and `log` is called exactly once per logging interval,
so the file holds exactly `num_loops = num_iterations / log_period = 100`
data rows, each supplying exactly those six columns. -/
theorem csv_logging_rows {C : Type} (update : C → C × Metrics)
    (timelapse : ℕ → Fl) (c0 : C) :
    csv_logger_init.header =
      ["loop", "iteration", "qd_score", "max_fitness", "coverage", "time"] ∧
    (mainLoop update timelapse c0).2.header = csv_logger_init.header ∧
    num_loops = num_iterations / log_period ∧
    num_loops = 100 ∧
    ((mainLoop update timelapse c0).2.rows).length = num_loops ∧
    ∀ row ∈ (mainLoop update timelapse c0).2.rows,
      (row.map Prod.fst).Perm csv_logger_init.header := by
  refine ⟨rfl, foldl_loopIter_header update timelapse _ _, rfl, rfl, ?_, ?_⟩
  · rw [mainLoop, foldl_loopIter_rows_length]
    simp [csv_logger_init]
  · intro row hrow
    rcases foldl_loopIter_rows_mem update timelapse _ _ row hrow with h | ⟨i, t, m, h⟩
    · simp [csv_logger_init] at h
    · rw [h, loggedRow_keys]
      decide

/-- C5: training is one loop of `num_loops` intervals, each running exactly
`log_period` MAP-Elites update steps through one `jax.lax.scan` of
`update_scan_fn` threading the carry; the final carry equals the
`num_loops * log_period`-fold iterate of the update, and
`num_loops * log_period = num_iterations`. -/
theorem training_loop_update_count {C : Type} (update : C → C × Metrics)
    (timelapse : ℕ → Fl) (c0 : C) :
    (∀ c : C, (laxScan (update_scan_fn update) c log_period).1 =
      (fun c => (update c).1)^[log_period] c) ∧
    (mainLoop update timelapse c0).1 =
      (fun c => (update c).1)^[num_loops * log_period] c0 ∧
    num_loops * log_period = num_iterations := by
  refine ⟨laxScan_update_fst update log_period, ?_, rfl⟩
  rw [mainLoop, foldl_loopIter_fst]
  simp

end DCRLME
